import Mathlib

/-!
Verification of the AIM (Central Credential Provider) request-execution
subsystem of the `aiobastion` repository, `src/aiobastion/aim.py`.

Python dictionaries are modelled as insertion-ordered association lists
with pairwise-distinct keys; JSON values as the inductive `JValue`.
The exception classes from `exceptions.py` (not under `src/`) are modelled
as distinct outcome constructors following the spec's error taxonomy (§7):
`CyberarkAPIException`, `CyberarkAIMnotFound`, `CyberarkException` and the
builtin `KeyError`/`ValueError`/`ContentTypeError`/`json.JSONDecodeError`
are unrelated classes, so an exception raised in one branch is not caught
by an `except` clause listing the others.
-/

namespace Aiobastion

/-- A JSON value, as decoded by `await req.json()`. -/
inductive JValue where
  | str (s : String)
  | num (n : Int)
  | bool (b : Bool)
  | null
  | obj (fields : List (String × JValue))
  | arr (elems : List JValue)

/-- Python `x == "APPAP004E"`: string equality; any non-string JSON value
compares unequal to a string. -/
def JValue.eqStr : JValue → String → Bool
  | .str s, t => s = t
  | _, _ => false

/-- Look up key `k` in an association list (Python `d[k]` / `k in d`). -/
def lookupKey {α : Type} (d : List (String × α)) (k : String) : Option α :=
  match d with
  | [] => none
  | (k0, v0) :: rest => if k0 = k then some v0 else lookupKey rest k

/-- Python `k in d`. -/
def hasKey {α : Type} (d : List (String × α)) (k : String) : Bool :=
  (lookupKey d k).isSome

/-- Python `d[k]` where the key is known to be present; the default is
unreachable in every use below. -/
def lookupD (d : List (String × String)) (k : String) : String :=
  (lookupKey d k).getD ""

/-- Python `d.pop(k)`: remove the entry for `k`, preserving the order of the
other entries.  (The value is read separately with `lookupKey`.) -/
def eraseKey {α : Type} (d : List (String × α)) (k : String) : List (String × α) :=
  match d with
  | [] => []
  | (k0, v0) :: rest => if k0 = k then rest else (k0, v0) :: eraseKey rest k

/-- Python `d[k] = v`: update in place if `k` is already a key, otherwise
append the new entry at the end (dict insertion order). -/
def setKey {α : Type} (d : List (String × α)) (k : String) (v : α) : List (String × α) :=
  match d with
  | [] => [(k, v)]
  | (k0, v0) :: rest => if k0 = k then (k0, v) :: rest else (k0, v0) :: setKey rest k v

/-- Python `d.setdefault(k, v)`: insert `(k, v)` at the end only when `k` is
not already a key; never overrides an existing entry. -/
def setdefaultKey {α : Type} (d : List (String × α)) (k : String) (v : α) : List (String × α) :=
  if hasKey d k then d else d ++ [(k, v)]

/-- The keys of an association list, in order. -/
def keysOf {α : Type} (d : List (String × α)) : List String :=
  d.map Prod.fst

/-- Python `k.lower()`: charwise basic-latin lowercasing (the character map
of `Char.toLower`, applied through the string's character list so that its
equations are directly usable in proofs). -/
def pyLower (s : String) : String :=
  ⟨s.data.map Char.toLower⟩

/-- Python `str(x)` / f-string rendering of an optional string attribute:
`None` renders as the text `None`. -/
def optStr : Option String → String
  | some s => s
  | none => "None"

/-- Phrase table of `http.HTTPStatus` from the Python standard library:
`some phrase` for the standard status codes, `none` exactly when the
`HTTPStatus(code)` constructor raises `ValueError`. -/
def httpStatusPhrase : Nat → Option String
  | 100 => some "Continue"
  | 101 => some "Switching Protocols"
  | 102 => some "Processing"
  | 103 => some "Early Hints"
  | 200 => some "OK"
  | 201 => some "Created"
  | 202 => some "Accepted"
  | 203 => some "Non-Authoritative Information"
  | 204 => some "No Content"
  | 205 => some "Reset Content"
  | 206 => some "Partial Content"
  | 207 => some "Multi-Status"
  | 208 => some "Already Reported"
  | 226 => some "IM Used"
  | 300 => some "Multiple Choices"
  | 301 => some "Moved Permanently"
  | 302 => some "Found"
  | 303 => some "See Other"
  | 304 => some "Not Modified"
  | 305 => some "Use Proxy"
  | 307 => some "Temporary Redirect"
  | 308 => some "Permanent Redirect"
  | 400 => some "Bad Request"
  | 401 => some "Unauthorized"
  | 402 => some "Payment Required"
  | 403 => some "Forbidden"
  | 404 => some "Not Found"
  | 405 => some "Method Not Allowed"
  | 406 => some "Not Acceptable"
  | 407 => some "Proxy Authentication Required"
  | 408 => some "Request Timeout"
  | 409 => some "Conflict"
  | 410 => some "Gone"
  | 411 => some "Length Required"
  | 412 => some "Precondition Failed"
  | 413 => some "Request Entity Too Large"
  | 414 => some "Request-URI Too Long"
  | 415 => some "Unsupported Media Type"
  | 416 => some "Requested Range Not Satisfiable"
  | 417 => some "Expectation Failed"
  | 418 => some "I\x27m a Teapot"
  | 421 => some "Misdirected Request"
  | 422 => some "Unprocessable Entity"
  | 423 => some "Locked"
  | 424 => some "Failed Dependency"
  | 425 => some "Too Early"
  | 426 => some "Upgrade Required"
  | 428 => some "Precondition Required"
  | 429 => some "Too Many Requests"
  | 431 => some "Request Header Fields Too Large"
  | 451 => some "Unavailable For Legal Reasons"
  | 500 => some "Internal Server Error"
  | 501 => some "Not Implemented"
  | 502 => some "Bad Gateway"
  | 503 => some "Service Unavailable"
  | 504 => some "Gateway Timeout"
  | 505 => some "HTTP Version Not Supported"
  | 506 => some "Variant Also Negotiates"
  | 507 => some "Insufficient Storage"
  | 508 => some "Loop Detected"
  | 510 => some "Not Extended"
  | 511 => some "Network Authentication Required"
  | _ => none

/-- Runtime value of the `verify` attribute: Python `None`, a `bool`, a
`str`, or a value of any other type (e.g. an `int`). -/
inductive PyVerify where
  | pyNone
  | bool (b : Bool)
  | str (s : String)
  | other
  deriving Repr, DecidableEq

/-- Python `isinstance(v, str)`. -/
def PyVerify.isStr : PyVerify → Bool
  | .str _ => true
  | _ => false

/-- Python `isinstance(v, bool)`. -/
def PyVerify.isBool : PyVerify → Bool
  | .bool _ => true
  | _ => false

/-- Modelled from the spec: `cyberark.py` (the `EPV` class constants) is not
under `src/`; §4.1 documents the fallback verification policy as "no
verification", i.e. the boolean `false`. -/
def CYBERARK_DEFAULT_VERIFY : PyVerify := .bool false

/-- Modelled from the spec: default keep-cookies flag of the `EPV` class
from the missing `cyberark.py`; its value is irrelevant to the claims. -/
def CYBERARK_DEFAULT_KEEP_COOKIES : Bool := false

/-- An `ssl.SSLContext` as configured by `validate_and_setup_aim_ssl`:
`create_default_context(capath/cafile)` plus `check_hostname` and the client
certificate chain loaded by `load_cert_chain`. -/
structure SSLContextSpec where
  capath : Option String
  cafile : Option String
  check_hostname : Bool
  certfile : String
  keyfile : Option String
  password : Option String
  deriving Repr, DecidableEq

/-- The `self.request_params` dictionary: request timeout plus TLS context. -/
structure RequestParams where
  timeout : Int
  ssl : SSLContextSpec
  deriving Repr, DecidableEq

/-- The filesystem visible through `os.path.exists` / `os.path.isdir`. -/
structure FS where
  pathExists : String → Bool
  isdir : String → Bool

/-- The mutable attributes of an `EPV_AIM` instance.  `session` and `sema`
hold the identifier of the `aiohttp.ClientSession` / `asyncio.Semaphore`
currently owned (`none` = Python `None`); `sessionsCreated` and
`semasCreated` count how many such objects have been allocated so far,
instrumenting the `aiohttp.ClientSession()` and `asyncio.Semaphore(...)`
constructor calls. -/
structure EPV_AIM where
  host : Option String
  appid : Option String
  cert : Option String
  key : Option String
  passphrase : Option String
  verify : PyVerify
  timeout : Int
  max_concurrent_tasks : Nat
  keep_cookies : Bool
  session : Option Nat
  sema : Option Nat
  request_params : Option RequestParams
  sessionsCreated : Nat
  semasCreated : Nat
  deriving Repr, DecidableEq

/-- Lines 70-72 of `aim.py`, the `verify` validation in `EPV_AIM.__init__`:
`true` exactly when the constructor raises `AiobastionException`
(`self.verify is not False and not (isinstance(self.verify, str) and not
isinstance(self.verify, bool))`). -/
def init_verify_check_raises (verify : PyVerify) : Bool :=
  decide (verify ≠ PyVerify.bool false) && !(verify.isStr && !verify.isBool)

/-- `EPV_AIM.get_url` (lines 285-289): endpoint address and fixed header
set.  An unset host renders as `None` per Python f-string semantics. -/
def get_url (self : EPV_AIM) (url : String) : String × List (String × String) :=
  ("https://" ++ optStr self.host ++ "/AIMWebService/api/" ++ url,
   [("Content-type", "application/json")])

/-- Python f-string rendering of a string-valued dict, `\x7b'k': 'v', ...\x7d`. -/
def renderParams (params : List (String × String)) : String :=
  "\x7b" ++ String.intercalate ", "
    (params.map (fun p => "\x27" ++ p.1 ++ "\x27: \x27" ++ p.2 ++ "\x27")) ++ "\x7d"

/-- `EPV_AIM.handle_error_detail_info` (lines 385-394): redacted request
description; a caller-supplied `appid` is replaced by `<hidden>`. -/
def handle_error_detail_info (url : String) (params : List (String × String)) : String :=
  let params_new := if hasKey params "appid" then setKey params "appid" "<hidden>" else params
  "url: " ++ url ++ ", params: " ++ renderParams params_new

/-- Lines 414-418 of `handle_aim_request`: the default-appid injection.
The source tests membership of the key `applid` (sic) and then
`setdefault`s the key `appid`. -/
def aim_params_new (self : EPV_AIM) (params : List (String × String)) :
    List (String × String) :=
  if !(hasKey params "applid") then setdefaultKey params "appid" (optStr self.appid)
  else params

/-- Result of `session.request` together with `await req.json()`:
a parsed JSON object, a body that is not valid JSON
(`json.decoder.JSONDecodeError`), or a non-JSON content type
(`aiohttp.ContentTypeError`, carrying `str(err)`). -/
inductive RespBody where
  | jsonObj (fields : List (String × JValue))
  | malformed
  | wrongContentType (errText : String)

/-- What the network run of one GET produces: an HTTP response, or an
`aiohttp.ClientError` transport failure carrying `str(err)`. -/
inductive NetInput where
  | response (status : Nat) (body : RespBody)
  | transportError (errText : String)

/-- The classified outcome of one `handle_aim_request` call.  Constructors
map the exception classes of the spec's taxonomy (§7): `success` = normal
return, `apiError` = `CyberarkAPIException` (APIError), `notFound` =
`CyberarkAIMnotFound` (NotFoundError), `cyberarkError` = `CyberarkException`
(RuntimeError), `uncaughtError` = a builtin exception escaping every
`except` clause of lines 420-468. -/
inductive AimOutcome where
  | success (body : List (String × JValue))
  | apiError (status : Nat) (code : JValue) (msg : JValue) (details : JValue)
  | notFound (status : Nat) (code : JValue) (msg : JValue) (details : JValue)
  | cyberarkError (msg : String)
  | uncaughtError (msg : String)

/-- Lines 426-464 of `handle_aim_request`: classification of an HTTP
response.  A non-standard status makes `HTTPStatus(req.status)` raise
`ValueError`; raised at line 450 it is caught by the
`except (KeyError, ValueError, ContentTypeError)` clause (line 459) and
re-wrapped as `CyberarkException`; raised inside the `JSONDecodeError`
handler (line 455) it escapes the whole `try` uncaught. -/
def classify_response (url : String) (params_new : List (String × String))
    (status : Nat) (body : RespBody) : AimOutcome :=
  match body with
  | .jsonObj fields =>
    if status = 200 then
      match lookupKey fields "Content" with
      | none =>
        .apiError status (.str "INVALID_JSON")
          (.str "Could not find the password (\x27Content\x27)")
          (.str (handle_error_detail_info url params_new))
      | some _ => .success fields
    else
      let details : JValue :=
        match lookupKey fields "Details" with
        | some d => d
        | none => .str (handle_error_detail_info url params_new)
      match lookupKey fields "ErrorCode", lookupKey fields "ErrorMsg" with
      | some c, some m =>
        if c.eqStr "APPAP004E" then .notFound status c m details
        else .apiError status c m details
      | _, _ =>
        match httpStatusPhrase status with
        | some phrase => .apiError status (.str "HTTP_ERR_CODE") (.str phrase) details
        | none =>
          .cyberarkError ("HTTP error " ++ toString status ++ ": " ++ toString status
            ++ " is not a valid HTTPStatus || Additional Details : "
            ++ handle_error_detail_info url params_new)
  | .malformed =>
    match httpStatusPhrase status with
    | some phrase =>
      .apiError status (.str "HTTP_ERR_CODE") (.str phrase)
        (.str (handle_error_detail_info url params_new))
    | none => .uncaughtError (toString status ++ " is not a valid HTTPStatus")
  | .wrongContentType errText =>
    .cyberarkError ("HTTP error " ++ toString status ++ ": " ++ errText
      ++ " || Additional Details : " ++ handle_error_detail_info url params_new)

/-- `EPV_AIM.handle_aim_request` (lines 396-468) given the network outcome
of its single GET.  The semaphore bracket around the request is modelled
separately (see `AimStep`); this function is the per-call data path:
URL construction, default-appid injection, and outcome classification. -/
def handle_aim_request (self : EPV_AIM) (short_url : String)
    (params : List (String × String)) (net : NetInput) : AimOutcome :=
  let url := (get_url self short_url).1
  let params_new := aim_params_new self params
  match net with
  | .response status body => classify_response url params_new status body
  | .transportError errText =>
    .cyberarkError ("HTTP error: " ++ errText ++ " || Additional Details : "
      ++ handle_error_detail_info url params_new)

/-- The `AIM_secret_resp` namedtuple (line 17). -/
structure AIM_secret_resp where
  secret : JValue
  detail : List (String × JValue)

/-- `EPV_AIM.get_secret_detail` (lines 344-383): run the request and
extract `detail_info["Content"]`; a raised exception propagates as
`Except.error`. -/
def get_secret_detail (self : EPV_AIM) (params : List (String × String))
    (net : NetInput) : Except AimOutcome AIM_secret_resp :=
  match handle_aim_request self "Accounts" params net with
  | .success fields =>
    match lookupKey fields "Content" with
    | some v => .ok ⟨v, fields⟩
    | none => .error (.uncaughtError "KeyError: \x27Content\x27")
  | e => .error e

/-- `EPV_AIM.get_secret` (lines 327-342). -/
def get_secret (self : EPV_AIM) (params : List (String × String))
    (net : NetInput) : Except AimOutcome JValue :=
  (get_secret_detail self params net).map AIM_secret_resp.secret

/-- Python `repr` of a string, as produced by `!r` in an f-string. -/
def pyReprStr (s : String) : String := "\x27" ++ s ++ "\x27"

/-- Python `type(v)` rendering for the `verify` attribute. -/
def pyTypeName : PyVerify → String
  | .pyNone => "<class \x27NoneType\x27>"
  | .bool _ => "<class \x27bool\x27>"
  | .str _ => "<class \x27str\x27>"
  | .other => "<class \x27object\x27>"

/-- Python `repr(v)` rendering for the `verify` attribute (the rendering of
the `other` constructor is arbitrary; no claim depends on it). -/
def pyReprVerify : PyVerify → String
  | .pyNone => "None"
  | .bool true => "True"
  | .bool false => "False"
  | .str s => pyReprStr s
  | .other => "<object>"

/-- Python truthiness of an optional string: `None` and `""` are falsy. -/
def pyTruthy : Option String → Bool
  | some s => s ≠ ""
  | none => false

/-- The error message of lines 204-205 (note the source text says the
required parameters are "host, appid, key" although it checks `cert`). -/
def missing_param_msg (attr : String) : String :=
  "Missing AIM mandatory parameter \x27" ++ attr
    ++ "\x27. Required parameters are: host, appid, key."

/-- The mandatory-attribute loop of lines 200-205: the first attribute among
`host`, `appid`, `cert` (in that order) whose value is `None`. -/
def missing_mandatory (self : EPV_AIM) : Option String :=
  if self.host = none then some "host"
  else if self.appid = none then some "appid"
  else if self.cert = none then some "cert"
  else none

/-- `EPV_AIM.validate_and_setup_aim_ssl` (lines 195-242): returns the
updated instance (its `verify` attribute possibly rewritten by line 215 and
`request_params` built) or the message of the raised `AiobastionException`.
The `os.path.exists` re-check of lines 225-226 duplicates the one of lines
221-222 and is absorbed into the single `pathExists` test of the `str`
branch. -/
def validate_and_setup_aim_ssl (fs : FS) (self : EPV_AIM) : Except String EPV_AIM :=
  if self.session.isSome then Except.ok self
  else match missing_mandatory self with
  | some attr => Except.error (missing_param_msg attr)
  | none =>
    let cert := self.cert.getD ""
    if !(fs.pathExists cert) then
      Except.error ("Parameter \x27cert\x27 in AIM: Public certificate file not found: "
        ++ pyReprStr cert)
    else if pyTruthy self.key && !(fs.pathExists (self.key.getD "")) then
      Except.error ("Parameter \x27key\x27 in AIM: Private key certificat file not found: "
        ++ pyReprStr (self.key.getD ""))
    else
      let verify1 := if self.verify = PyVerify.bool false then CYBERARK_DEFAULT_VERIFY
                     else self.verify
      if !(verify1.isStr || verify1.isBool) then
        Except.error ("Invalid type for parameter \x27verify\x27 (or \x27CA\x27) in AIM: "
          ++ pyTypeName verify1 ++ " value: " ++ pyReprVerify verify1)
      else match verify1 with
      | .str s =>
        if !(fs.pathExists s) then
          Except.error ("Parameter \x27verify\x27 in AIM: file not found " ++ pyReprStr s)
        else
          let ssl_context : SSLContextSpec :=
            if fs.isdir s then
              { capath := some s, cafile := none, check_hostname := true,
                certfile := cert, keyfile := self.key, password := self.passphrase }
            else
              { capath := none, cafile := some s, check_hostname := true,
                certfile := cert, keyfile := self.key, password := self.passphrase }
          Except.ok { self with
                      verify := verify1,
                      request_params := some { timeout := self.timeout, ssl := ssl_context } }
      | v =>
        let ssl_context : SSLContextSpec :=
          { capath := none, cafile := none,
            check_hostname := (match v with | .bool false => false | _ => true),
            certfile := cert, keyfile := self.key, password := self.passphrase }
        Except.ok { self with
                    verify := verify1,
                    request_params := some { timeout := self.timeout, ssl := ssl_context } }

/-- `EPV_AIM.get_aim_session` (lines 300-312): lazily build the TLS
parameters, the `aiohttp.ClientSession` and the `asyncio.Semaphore`; an
exception from the TLS builder propagates. -/
def get_aim_session (fs : FS) (self : EPV_AIM) : Except String EPV_AIM :=
  match (if self.session = none then
           (match (if self.request_params = none then validate_and_setup_aim_ssl fs self
                   else Except.ok self) with
            | Except.error e => Except.error e
            | Except.ok s0 =>
              Except.ok { s0 with session := some s0.sessionsCreated,
                                  sessionsCreated := s0.sessionsCreated + 1 })
         else Except.ok self) with
  | Except.error e => Except.error e
  | Except.ok s1 =>
    if s1.sema = none then
      Except.ok { s1 with sema := some s1.max_concurrent_tasks,
                          semasCreated := s1.semasCreated + 1 }
    else Except.ok s1

/-- `EPV_AIM.close_aim_session` (lines 314-325): closes the session and
clears `session` and `sema` (but not `request_params`). -/
def close_aim_session (self : EPV_AIM) : EPV_AIM :=
  { self with session := none, sema := none }

/-- `EPV_AIM._GETPASSWORD_REQUEST_PARM` (lines 29-31). -/
def GETPASSWORD_REQUEST_PARM : List String :=
  ["safe", "folder", "object", "username", "address", "database",
   "policyid", "reason", "connectiontimeout", "query", "queryformat",
   "failrequestonpasswordchange"]

/-- The key loop of `valid_secret_params` (lines 252-260), iterating over
the snapshot `list(params.keys())` while the dict is mutated. -/
def valid_secret_params_go (ks : List String) (d : List (String × String)) :
    String × List (String × String) :=
  match ks with
  | [] => ("", d)
  | k :: rest =>
    let key_lower := pyLower k
    if !(GETPASSWORD_REQUEST_PARM.contains key_lower) then
      ("unknown parameter: " ++ k ++ "=" ++ lookupD d k, d)
    else if k ≠ key_lower then
      valid_secret_params_go rest (setKey (eraseKey d k) key_lower (lookupD d k))
    else
      valid_secret_params_go rest d

/-- `EPV_AIM.valid_secret_params` (lines 244-262) on a dict argument:
returns the error string (`""` = no error) and the mutated dict. -/
def valid_secret_params (params : List (String × String)) :
    String × List (String × String) :=
  valid_secret_params_go (keysOf params) params

/-- A value from a serialized (YAML) configuration mapping. -/
inductive PyVal where
  | vstr (s : String)
  | vint (n : Int)
  | vbool (b : Bool)
  | vnone
  deriving Repr, DecidableEq

/-- Python `repr` of a configuration value. -/
def PyVal.pyRepr : PyVal → String
  | .vstr s => pyReprStr s
  | .vint n => toString n
  | .vbool true => "True"
  | .vbool false => "False"
  | .vnone => "None"

/-- Whether `needle` occurs as a contiguous run inside the character list
(Python `needle in hay` on strings; an empty needle always matches). -/
def listHasSub (needle : List Char) : List Char → Bool
  | [] => needle.isEmpty
  | c :: rest => needle.isPrefixOf (c :: rest) || listHasSub needle rest

/-- Python substring containment `needle in hay`. -/
def strHasSub (needle hay : String) : Bool :=
  listHasSub needle.toList hay.toList

/-- A raised exception during configuration validation. -/
inductive ConfigFailure where
  | configError (msg : String)
  | stringRaised (msg : String)
  | typeError (msg : String)
  deriving Repr, DecidableEq

/-- `EPV_AIM._to_integer` (lines 179-191).  Python `int(val)` on an `int`,
`bool` or numeric string; a non-numeric string raises `ValueError`, caught
and answered by `raise s` where `s` is a plain string - which in Python 3
itself raises `TypeError` (modelled as `stringRaised`); `int(None)` raises
an uncaught `TypeError`. -/
def to_integer (val : PyVal) (keyname sectionName : String)
    (configfile : Option String) : Except ConfigFailure Int :=
  match val with
  | .vint n => Except.ok n
  | .vbool b => Except.ok (if b then 1 else 0)
  | .vstr s =>
    match s.toInt? with
    | some n => Except.ok n
    | none =>
      Except.error (.stringRaised (match configfile with
        | some cf => "Invalid integer defintion \x27" ++ keyname ++ "\x27  within section \x27"
            ++ sectionName ++ "\x27 in " ++ cf ++ ": " ++ pyReprStr s
        | none => "Invalid integer defintion \x27" ++ keyname ++ "\x27  within section \x27"
            ++ sectionName ++ "\x27: " ++ pyReprStr s))
  | .vnone => Except.error (.typeError
      "int() argument must be a string, a bytes-like object or a real number, not \x27NoneType\x27")

/-- The default `serialized_aim` dict of lines 92-102, in source order. -/
def serialized_aim_defaults : List (String × PyVal) :=
  [("appid", .vnone), ("cert", .vnone), ("host", .vnone),
   ("keep_cookies", .vbool CYBERARK_DEFAULT_KEEP_COOKIES), ("key", .vnone),
   ("max_concurrent_tasks", .vnone), ("passphrase", .vnone),
   ("timeout", .vnone), ("verify", .vnone)]

/-- The message of lines 118-123. -/
def invalid_bool_msg (keyname sectionName : String) (configfile : Option String)
    (v : PyVal) : String :=
  match configfile with
  | some cf => "Invalid boolean defintion \x27" ++ keyname ++ "\x27  within section \x27"
      ++ sectionName ++ "\x27 in " ++ cf ++ ": " ++ v.pyRepr
  | none => "Invalid boolean defintion \x27" ++ keyname ++ "\x27  within section \x27"
      ++ sectionName ++ "\x27: " ++ v.pyRepr

/-- The key loop of `_init_validate_class_attributes` (lines 107-132).
Note the second branch is the source's `elif keyname in "timeout"`, a
substring containment test, not an equality. -/
def init_validate_go (sectionName : String) (configfile : Option String) :
    List (String × PyVal) → List (String × PyVal) → Nat → Nat →
    Except ConfigFailure (List (String × PyVal) × Nat × Nat)
  | [], d, sv, sm => Except.ok (d, sv, sm)
  | (k, v) :: rest, d, sv, sm =>
    let keyname := pyLower k
    if ["appid", "cert", "host", "key", "passphrase"].contains keyname then
      init_validate_go sectionName configfile rest (setKey d keyname v) sv sm
    else if strHasSub keyname "timeout" then
      match to_integer v keyname sectionName configfile with
      | .ok n => init_validate_go sectionName configfile rest (setKey d keyname (.vint n)) sv sm
      | .error e => Except.error e
    else if keyname = "keep_cookies" then
      match v with
      | .vbool b => init_validate_go sectionName configfile rest (setKey d keyname (.vbool b)) sv sm
      | _ => Except.error (.configError (invalid_bool_msg keyname sectionName configfile v))
    else if ["maxtasks", "max_concurrent_tasks"].contains keyname then
      match to_integer v keyname sectionName configfile with
      | .ok n => init_validate_go sectionName configfile rest
          (setKey d "max_concurrent_tasks" (.vint n)) sv (sm + 1)
      | .error e => Except.error e
    else if ["ca", "verify"].contains keyname then
      init_validate_go sectionName configfile rest (setKey d "verify" v) (sv + 1) sm
    else
      Except.error (.configError ("Unknown attribute \x27" ++ k
        ++ "\x27 within section \x27AIM\x27 in " ++ optStr configfile))

/-- `EPV_AIM._init_validate_class_attributes` (lines 75-143; the leading
underscore of the source name is dropped).  Builds the validated
`serialized_aim` dict or raises. -/
def init_validate_class_attributes (serialized : List (String × PyVal))
    (sectionName : String) (configfile : Option String) :
    Except ConfigFailure (List (String × PyVal)) :=
  match init_validate_go sectionName configfile serialized serialized_aim_defaults 0 0 with
  | .error e => Except.error e
  | .ok (d, sv, sm) =>
    if sv > 1 then
      Except.error (.configError
        "Duplicate synonym parameter: \x27ca\x27, \x27verify\x27 within section \x27AIM\x27.Specify only one of them.")
    else if sm > 1 then
      Except.error (.configError
        ("Duplicate synonym parameter: \x27maxtasks\x27, \x27max_concurrent_tasks\x27 within section \x27AIM\x27 in "
          ++ optStr configfile ++ ".Specify only one of them."))
    else Except.ok d

/-- Whether an outcome is a raised `CyberarkAPIException` (APIError). -/
def AimOutcome.isApiError : AimOutcome → Bool
  | .apiError _ _ _ _ => true
  | _ => false

/-- Whether an outcome is a normal (successful) return. -/
def AimOutcome.isSuccess : AimOutcome → Bool
  | .success _ => true
  | _ => false

/-- One logical `handle_aim_request` call: its parameter dict and the
network outcome its single GET will produce. -/
structure AimCall where
  params : List (String × String)
  net : NetInput

/-- The data path of one call (URL, appid injection, classification),
applied to the call's own network outcome: each task's result depends only
on its own response. -/
def runCall (self : EPV_AIM) (c : AimCall) : AimOutcome :=
  handle_aim_request self "Accounts" c.params c.net

/-- Phase of one logical task inside the `async with self.__sema:` bracket
of lines 420-468: not yet holding a permit, holding a permit with the GET
in flight, or finished with a classified outcome. -/
inductive TaskPhase where
  | idle
  | inflight
  | done (out : AimOutcome)

/-- Whether a task has reached its terminal phase. -/
def TaskPhase.isDone : TaskPhase → Bool
  | .done _ => true
  | _ => false

/-- Whether a task currently holds a permit with its GET in flight. -/
def TaskPhase.isInflight : TaskPhase → Bool
  | .inflight => true
  | _ => false

/-- One logical task: its call data and current phase. -/
structure AimTask where
  call : AimCall
  phase : TaskPhase

/-- The cooperative system of one client: the permit counter of
`asyncio.Semaphore(max_concurrent_tasks)` plus the logical tasks.  The
session object itself is only read by the tasks and needs no state here. -/
structure AimSystem where
  maxTasks : Nat
  permits : Nat
  tasks : List AimTask

/-- Number of tasks currently in flight. -/
def inflightCount (ts : List AimTask) : Nat :=
  ts.countP (fun t => t.phase.isInflight)

/-- Sum of remaining step counts, used as the termination measure. -/
def phaseWeight : TaskPhase → Nat
  | .idle => 2
  | .inflight => 1
  | .done _ => 0

/-- Termination measure of a system: total remaining steps of all tasks. -/
def sysMeasure (s : AimSystem) : Nat :=
  (s.tasks.map (fun t => phaseWeight t.phase)).sum

/-- Small-step interleaving semantics of `async with self.__sema:` around
the GET (lines 420-422 and the request body).  `acquire` models
`self.__sema.acquire()`: enabled only while a permit is free.  `finish`
models the suspension-free remainder: the GET completes with the task's own
network outcome, the body returns or raises its classified result, and the
`async with` releases the permit on that exit path - `classify_response` is
total, so every branch of lines 422-468, failure branches included,
releases.  The scheduler may pick any enabled task at each step. -/
inductive AimStep (self : EPV_AIM) : AimSystem → AimSystem → Prop where
  | acquire (mx p : Nat) (l₁ l₂ : List AimTask) (c : AimCall) (hp : 0 < p) :
      AimStep self ⟨mx, p, l₁ ++ ⟨c, .idle⟩ :: l₂⟩
                   ⟨mx, p - 1, l₁ ++ ⟨c, .inflight⟩ :: l₂⟩
  | finish (mx p : Nat) (l₁ l₂ : List AimTask) (c : AimCall) :
      AimStep self ⟨mx, p, l₁ ++ ⟨c, .inflight⟩ :: l₂⟩
                   ⟨mx, p + 1, l₁ ++ ⟨c, .done (runCall self c)⟩ :: l₂⟩

/-- States reachable by interleaving task steps. -/
def AimReachable (self : EPV_AIM) : AimSystem → AimSystem → Prop :=
  Relation.ReflTransGen (AimStep self)

/-- The system as it stands when N callers have invoked `execute`
simultaneously on a freshly opened client: the gate holds
`max_concurrent_tasks` permits and every task is about to acquire. -/
def initSystem (mx : Nat) (calls : List AimCall) : AimSystem :=
  ⟨mx, mx, calls.map (fun c => ⟨c, .idle⟩)⟩

/-- A deadlocked system: no task can take any step. -/
def StuckSys (self : EPV_AIM) (s : AimSystem) : Prop :=
  ∀ s', AimStep self s s' → False

/-- Whether every task of the system is still unfinished. -/
def noTaskDone (s : AimSystem) : Bool :=
  s.tasks.all (fun t => !t.phase.isDone)

/-- The `details` value extracted at lines 437-440 for a non-200 response:
the body's `Details` when present, else the redacted request description. -/
def error_details (self : EPV_AIM) (params : List (String × String))
    (fields : List (String × JValue)) : JValue :=
  match lookupKey fields "Details" with
  | some d => d
  | none => .str (handle_error_detail_info (get_url self "Accounts").1
      (aim_params_new self params))

/-- A concrete client configuration used by witnesses and counterexamples. -/
def sampleSelf : EPV_AIM :=
  { host := some "h", appid := some "app", cert := some "c.pem", key := none,
    passphrase := none, verify := .bool false, timeout := 30,
    max_concurrent_tasks := 10, keep_cookies := false,
    session := none, sema := none, request_params := none,
    sessionsCreated := 0, semasCreated := 0 }

/-- A filesystem on which every path exists and none is a directory. -/
def allFS : FS := ⟨fun _ => true, fun _ => false⟩

/-- The sample client with verification policy `True`. -/
def verifyTrueSelf : EPV_AIM := { sampleSelf with verify := .bool true }

/-- `getattr(self, attr_name, None)` for the three mandatory attributes. -/
def attr_value (self : EPV_AIM) : String → Option String
  | "host" => self.host
  | "appid" => self.appid
  | "cert" => self.cert
  | _ => none

/-- The state of the sample client after its session has been opened. -/
def sessionOpenedSelf : EPV_AIM :=
  { sampleSelf with
    request_params := some
      { timeout := 30,
        ssl := { capath := none, cafile := none, check_hostname := false,
                 certfile := "c.pem", keyfile := none, password := none } },
    session := some 0, sema := some 10, sessionsCreated := 1, semasCreated := 1 }

/-- The first entry whose lowercased key falls outside the allow-list. -/
def firstInvalid (params : List (String × String)) : Option (String × String) :=
  params.find? (fun p => !(GETPASSWORD_REQUEST_PARM.contains (pyLower p.1)))

/-- A sample call whose GET returns a successful response. -/
def cexCall : AimCall :=
  ⟨[], .response 200 (.jsonObj [("Content", .str "p")])⟩

/-- One caller on a client whose gate was built with zero permits. -/
def deadSystem : AimSystem := initSystem 0 [cexCall]

theorem eqStr_iff (c : JValue) (t : String) : c.eqStr t = true ↔ c = .str t := by
  cases c <;> simp [JValue.eqStr]

/-- C1: an HTTP-200 response whose JSON body has no `Content` key makes
`handle_aim_request` raise `CyberarkAPIException` (APIError) with code
`INVALID_JSON`, and `get_secret_detail` / `get_secret` propagate that
error, never returning a successful result. -/
theorem claim_C1_invalid_json (self : EPV_AIM) (params : List (String × String))
    (fields : List (String × JValue)) (h : lookupKey fields "Content" = none) :
    handle_aim_request self "Accounts" params (.response 200 (.jsonObj fields)) =
      .apiError 200 (.str "INVALID_JSON")
        (.str "Could not find the password (\x27Content\x27)")
        (.str (handle_error_detail_info (get_url self "Accounts").1
          (aim_params_new self params))) ∧
    (∀ r, get_secret_detail self params (.response 200 (.jsonObj fields)) ≠ Except.ok r) ∧
    (∀ v, get_secret self params (.response 200 (.jsonObj fields)) ≠ Except.ok v) := by
  have h1 : handle_aim_request self "Accounts" params (.response 200 (.jsonObj fields)) =
      .apiError 200 (.str "INVALID_JSON")
        (.str "Could not find the password (\x27Content\x27)")
        (.str (handle_error_detail_info (get_url self "Accounts").1
          (aim_params_new self params))) := by
    simp [handle_aim_request, classify_response, h]
  refine ⟨h1, ?_, ?_⟩
  · intro r
    simp [get_secret_detail, h1]
  · intro v
    simp [get_secret, get_secret_detail, h1, Except.map]

theorem claim_C1_witness :
    lookupKey [("X", JValue.num 1)] "Content" = none ∧
    handle_aim_request sampleSelf "Accounts" []
        (.response 200 (.jsonObj [("X", JValue.num 1)])) =
      .apiError 200 (.str "INVALID_JSON")
        (.str "Could not find the password (\x27Content\x27)")
        (.str (handle_error_detail_info (get_url sampleSelf "Accounts").1
          (aim_params_new sampleSelf []))) :=
  ⟨rfl, (claim_C1_invalid_json sampleSelf [] [("X", JValue.num 1)] rfl).1⟩

/-- C2: a non-200 response whose body carries both `ErrorCode` and
`ErrorMsg` raises `CyberarkAIMnotFound` (NotFoundError) when the code is
`APPAP004E` and `CyberarkAPIException` (APIError) otherwise, carrying the
body's `ErrorCode` and `ErrorMsg` values unmodified. -/
theorem claim_C2_errorcode_classification (self : EPV_AIM)
    (params : List (String × String)) (fields : List (String × JValue))
    (status : Nat) (hst : status ≠ 200) (c m : JValue)
    (hc : lookupKey fields "ErrorCode" = some c)
    (hm : lookupKey fields "ErrorMsg" = some m) :
    (c = .str "APPAP004E" →
      handle_aim_request self "Accounts" params (.response status (.jsonObj fields)) =
        .notFound status c m (error_details self params fields)) ∧
    (c ≠ .str "APPAP004E" →
      handle_aim_request self "Accounts" params (.response status (.jsonObj fields)) =
        .apiError status c m (error_details self params fields)) := by
  constructor
  · intro hce
    have hb : c.eqStr "APPAP004E" = true := (eqStr_iff c "APPAP004E").mpr hce
    simp [handle_aim_request, classify_response, hst, hc, hm, hb, error_details]
  · intro hce
    have hb : c.eqStr "APPAP004E" = false := by
      cases hb2 : c.eqStr "APPAP004E"
      · rfl
      · exact absurd ((eqStr_iff c "APPAP004E").mp hb2) hce
    simp [handle_aim_request, classify_response, hst, hc, hm, hb, error_details]

theorem claim_C2_witness :
    (404 : Nat) ≠ 200 ∧
    lookupKey [("ErrorCode", JValue.str "APPAP004E"), ("ErrorMsg", JValue.str "not found")]
      "ErrorCode" = some (JValue.str "APPAP004E") ∧
    handle_aim_request sampleSelf "Accounts" []
        (.response 404 (.jsonObj
          [("ErrorCode", JValue.str "APPAP004E"), ("ErrorMsg", JValue.str "not found")])) =
      .notFound 404 (.str "APPAP004E") (.str "not found")
        (error_details sampleSelf []
          [("ErrorCode", JValue.str "APPAP004E"), ("ErrorMsg", JValue.str "not found")]) :=
  ⟨by decide, rfl,
   (claim_C2_errorcode_classification sampleSelf []
      [("ErrorCode", JValue.str "APPAP004E"), ("ErrorMsg", JValue.str "not found")]
      404 (by decide) (JValue.str "APPAP004E") (JValue.str "not found") rfl rfl).1 rfl⟩

/-- C3: the code contradicts this claim internally.  The `verify`
validation of `EPV_AIM.__init__` (lines 70-72) raises for the boolean
`True` (it admits only `False` and strings, against the declared type
`Optional[Union[str, bool]]`), while `validate_and_setup_aim_ssl` itself
accepts `True` and builds the platform-default-trust context with hostname
checking enabled, as the claim describes. -/
theorem claim_C3_verify_true_rejected :
    init_verify_check_raises (.bool true) = true ∧
    init_verify_check_raises .pyNone = true ∧
    init_verify_check_raises (.bool false) = false ∧
    validate_and_setup_aim_ssl allFS verifyTrueSelf =
      Except.ok { verifyTrueSelf with
                  request_params := some
                    { timeout := 30,
                      ssl := { capath := none, cafile := none, check_hostname := true,
                               certfile := "c.pem", keyfile := none, password := none } } } :=
  ⟨rfl, rfl, rfl, rfl⟩

/-- C6: the code contradicts this claim.  Lines 414-418 test the
misspelled key `applid` before injecting the default under `appid`: a
parameter dict containing the key `applid` (and no `appid`) is passed
through unchanged, so no application id is injected although the caller
supplied none. -/
theorem claim_C6_applid_typo :
    aim_params_new sampleSelf [("applid", "x")] = [("applid", "x")] ∧
    hasKey (aim_params_new sampleSelf [("applid", "x")]) "appid" = false ∧
    aim_params_new sampleSelf [("appid", "mine")] = [("appid", "mine")] ∧
    aim_params_new sampleSelf [] = [("appid", "app")] :=
  ⟨rfl, rfl, rfl, rfl⟩


/-- C4: when at least one of `host`, `appid`, `cert` is unset, the TLS
session builder raises `AiobastionException` whose message names a missing
field, and returns no state (so no TLS context is built). -/
theorem claim_C4_missing_mandatory (fs : FS) (self : EPV_AIM)
    (hs : self.session = none)
    (h : self.host = none ∨ self.appid = none ∨ self.cert = none) :
    ∃ attr ∈ (["host", "appid", "cert"] : List String),
      attr_value self attr = none ∧
      validate_and_setup_aim_ssl fs self = Except.error (missing_param_msg attr) := by
  have hsess : self.session.isSome = false := by rw [hs]; rfl
  by_cases hh : self.host = none
  · refine ⟨"host", by simp, hh, ?_⟩
    simp [validate_and_setup_aim_ssl, hsess, missing_mandatory, hh]
  · by_cases ha : self.appid = none
    · refine ⟨"appid", by simp, ha, ?_⟩
      simp [validate_and_setup_aim_ssl, hsess, missing_mandatory, hh, ha]
    · have hc : self.cert = none := by tauto
      refine ⟨"cert", by simp, hc, ?_⟩
      simp [validate_and_setup_aim_ssl, hsess, missing_mandatory, hh, ha, hc]

theorem claim_C4_witness :
    ({ sampleSelf with host := none } : EPV_AIM).session = none ∧
    (∃ attr ∈ (["host", "appid", "cert"] : List String),
      attr_value { sampleSelf with host := none } attr = none ∧
      validate_and_setup_aim_ssl allFS { sampleSelf with host := none } =
        Except.error (missing_param_msg attr)) :=
  ⟨rfl, claim_C4_missing_mandatory allFS { sampleSelf with host := none } rfl (Or.inl rfl)⟩

/-- C5 fails as stated: for the non-standard status 599 (body lacking the
`ErrorCode`/`ErrorMsg` pair), `HTTPStatus(req.status)` raises `ValueError`,
which the handler of line 459 converts into `CyberarkException`
(RuntimeError) - not an APIError with code `HTTP_ERR_CODE`. -/
theorem claim_C5_counterexample :
    handle_aim_request sampleSelf "Accounts" [] (.response 599 (.jsonObj [])) =
      .cyberarkError "HTTP error 599: 599 is not a valid HTTPStatus || Additional Details : url: https://h/AIMWebService/api/Accounts, params: \x7b\x27appid\x27: \x27<hidden>\x27\x7d" ∧
    (handle_aim_request sampleSelf "Accounts" [] (.response 599 (.jsonObj []))).isApiError
      = false :=
  ⟨rfl, rfl⟩

/-- C5 (amended): for every non-200 response whose status is a standard
`HTTPStatus` member and whose body lacks the `ErrorCode`/`ErrorMsg` pair,
the executor raises APIError with code `HTTP_ERR_CODE` and the standard
reason phrase; a non-standard status instead raises RuntimeError
(`CyberarkException`). -/
theorem claim_C5_http_err_code (self : EPV_AIM) (params : List (String × String))
    (fields : List (String × JValue)) (status : Nat) (phrase : String)
    (hst : status ≠ 200) (hph : httpStatusPhrase status = some phrase)
    (hpair : lookupKey fields "ErrorCode" = none ∨ lookupKey fields "ErrorMsg" = none) :
    handle_aim_request self "Accounts" params (.response status (.jsonObj fields)) =
      .apiError status (.str "HTTP_ERR_CODE") (.str phrase)
        (error_details self params fields) := by
  rcases hpair with hp | hp
  · simp [handle_aim_request, classify_response, hst, hp, hph, error_details]
  · cases hc : lookupKey fields "ErrorCode" with
    | none => simp [handle_aim_request, classify_response, hst, hc, hph, error_details]
    | some c => simp [handle_aim_request, classify_response, hst, hc, hp, hph, error_details]

theorem claim_C5_witness :
    (404 : Nat) ≠ 200 ∧
    httpStatusPhrase 404 = some "Not Found" ∧
    handle_aim_request sampleSelf "Accounts" [] (.response 404 (.jsonObj [])) =
      .apiError 404 (.str "HTTP_ERR_CODE") (.str "Not Found")
        (error_details sampleSelf [] []) :=
  ⟨by decide, rfl,
   claim_C5_http_err_code sampleSelf [] [] 404 "Not Found" (by decide) rfl (Or.inl rfl)⟩

/-- C8: the code contradicts this claim.  The branch `elif keyname in
"timeout"` (line 112) is a substring containment test, so the unknown key
`out` - whose lowercased form is none of the accepted attributes or
synonyms - does not raise `AiobastionConfigurationException`; its value is
converted with `int()` and stored under the new key `out` in the result. -/
theorem claim_C8_substring_timeout :
    init_validate_class_attributes [("out", .vint 5)] "AIM" none =
      Except.ok (serialized_aim_defaults ++ [("out", PyVal.vint 5)]) ∧
    strHasSub (pyLower "out") "timeout" = true ∧
    ("out" ∈ (["appid", "cert", "host", "key", "passphrase", "timeout", "keep_cookies",
      "maxtasks", "max_concurrent_tasks", "ca", "verify"] : List String)) = False := by
  refine ⟨rfl, rfl, by simp⟩

theorem validate_preserves_session (fs : FS) (s s' : EPV_AIM)
    (h : validate_and_setup_aim_ssl fs s = Except.ok s') :
    s'.session = s.session ∧ s'.sema = s.sema ∧
    s'.sessionsCreated = s.sessionsCreated ∧ s'.semasCreated = s.semasCreated ∧
    s'.max_concurrent_tasks = s.max_concurrent_tasks := by
  unfold validate_and_setup_aim_ssl at h
  try dsimp only [] at h
  repeat' split at h
  all_goals first
    | exact Except.noConfusion h
    | (injection h with h2; subst h2; exact ⟨rfl, rfl, rfl, rfl, rfl⟩)

/-- C9: from a client with no open session and no gate, one
`get_aim_session` call creates exactly one session and one gate; the second
call returns the same state unchanged, and `validate_and_setup_aim_ssl` is
a no-op on the resulting state (guard of line 196) until an explicit close
resets `session`. -/
theorem claim_C9_session_idempotent (fs : FS) (st st₁ : EPV_AIM)
    (h0 : st.session = none) (h1 : st.sema = none)
    (h : get_aim_session fs st = Except.ok st₁) :
    get_aim_session fs st₁ = Except.ok st₁ ∧
    st₁.sessionsCreated = st.sessionsCreated + 1 ∧
    st₁.semasCreated = st.semasCreated + 1 ∧
    validate_and_setup_aim_ssl fs st₁ = Except.ok st₁ := by
  unfold get_aim_session at h
  rw [if_pos h0] at h
  by_cases hrp : st.request_params = none
  · rw [if_pos hrp] at h
    cases hv : validate_and_setup_aim_ssl fs st with
    | error e => rw [hv] at h; simp at h
    | ok s0 =>
      rw [hv] at h
      obtain ⟨p1, p2, p3, p4, p5⟩ := validate_preserves_session fs st s0 hv
      have hsema : s0.sema = none := p2.trans h1
      simp only [hsema] at h
      simp at h
      rw [← h]
      refine ⟨?_, by simp [p3], by simp [p4], ?_⟩
      · unfold get_aim_session
        simp
      · unfold validate_and_setup_aim_ssl
        simp
  · rw [if_neg hrp] at h
    simp only [h1] at h
    simp at h
    rw [← h]
    refine ⟨?_, by simp, by simp, ?_⟩
    · unfold get_aim_session
      simp
    · unfold validate_and_setup_aim_ssl
      simp


theorem claim_C9_witness :
    sampleSelf.session = none ∧ sampleSelf.sema = none ∧
    get_aim_session allFS sampleSelf = Except.ok sessionOpenedSelf ∧
    (get_aim_session allFS sessionOpenedSelf = Except.ok sessionOpenedSelf ∧
     sessionOpenedSelf.sessionsCreated = sampleSelf.sessionsCreated + 1 ∧
     sessionOpenedSelf.semasCreated = sampleSelf.semasCreated + 1 ∧
     validate_and_setup_aim_ssl allFS sessionOpenedSelf = Except.ok sessionOpenedSelf) :=
  ⟨rfl, rfl, rfl,
   claim_C9_session_idempotent allFS sampleSelf sessionOpenedSelf rfl rfl rfl⟩

theorem toNat_ofNat_valid (n : Nat) (h : n.isValidChar) : (Char.ofNat n).toNat = n := by
  rw [Char.ofNat, dif_pos h]
  rfl

theorem charToLower_idem (c : Char) : Char.toLower (Char.toLower c) = Char.toLower c := by
  unfold Char.toLower
  by_cases h : c.toNat ≥ 65 ∧ c.toNat ≤ 90
  · rw [if_pos h]
    have hvalid : (c.toNat + 32).isValidChar := Or.inl (by omega)
    rw [toNat_ofNat_valid _ hvalid]
    rw [if_neg (by omega)]
  · rw [if_neg h, if_neg h]

theorem pyLower_idem (s : String) : pyLower (pyLower s) = pyLower s := by
  unfold pyLower
  apply congrArg
  rw [List.map_map]
  exact List.map_congr_left (fun c _ => charToLower_idem c)

theorem lookupKey_eq_none {α : Type} (d : List (String × α)) (k : String)
    (h : k ∉ keysOf d) : lookupKey d k = none := by
  induction d with
  | nil => rfl
  | cons p rest ih =>
    obtain ⟨k0, v0⟩ := p
    simp only [keysOf, List.map_cons, List.mem_cons, not_or] at h
    simp only [lookupKey]
    rw [if_neg (fun he => h.1 he.symm)]
    exact ih h.2

theorem lookupKey_append_left_none {α : Type} (l₁ l₂ : List (String × α)) (k : String)
    (h : k ∉ keysOf l₁) : lookupKey (l₁ ++ l₂) k = lookupKey l₂ k := by
  induction l₁ with
  | nil => rfl
  | cons p rest ih =>
    obtain ⟨k0, v0⟩ := p
    simp only [keysOf, List.map_cons, List.mem_cons, not_or] at h
    simp only [List.cons_append, lookupKey]
    rw [if_neg (fun he => h.1 he.symm)]
    exact ih h.2

theorem lookupKey_cons_self {α : Type} (d : List (String × α)) (k : String) (v : α) :
    lookupKey ((k, v) :: d) k = some v := by
  simp [lookupKey]

theorem eraseKey_append_left_none {α : Type} (l₁ l₂ : List (String × α)) (k : String)
    (h : k ∉ keysOf l₁) : eraseKey (l₁ ++ l₂) k = l₁ ++ eraseKey l₂ k := by
  induction l₁ with
  | nil => rfl
  | cons p rest ih =>
    obtain ⟨k0, v0⟩ := p
    simp only [keysOf, List.map_cons, List.mem_cons, not_or] at h
    simp only [List.cons_append, eraseKey, List.append_eq]
    rw [if_neg (fun he => h.1 he.symm)]
    rw [ih h.2]

theorem eraseKey_cons_self {α : Type} (d : List (String × α)) (k : String) (v : α) :
    eraseKey ((k, v) :: d) k = d := by
  simp [eraseKey]

theorem setKey_of_not_mem {α : Type} (d : List (String × α)) (k : String) (v : α)
    (h : k ∉ keysOf d) : setKey d k v = d ++ [(k, v)] := by
  induction d with
  | nil => rfl
  | cons p rest ih =>
    obtain ⟨k0, v0⟩ := p
    simp only [keysOf, List.map_cons, List.mem_cons, not_or] at h
    simp only [setKey, List.cons_append]
    rw [if_neg (fun he => h.1 he.symm)]
    rw [ih h.2]

theorem key_facts (DL rest' DM : List (String × String)) (k v : String)
    (hnd : ((DL ++ (k, v) :: rest' ++ DM).map (fun p => pyLower p.1)).Nodup) :
    k ∉ keysOf DL ∧ pyLower k ∉ keysOf DL ∧
    pyLower k ∉ keysOf rest' ∧ pyLower k ∉ keysOf DM := by
  simp only [List.map_append, List.map_cons, List.append_assoc, List.cons_append] at hnd
  rw [List.nodup_append] at hnd
  obtain ⟨hA, hBC, hdisj⟩ := hnd
  have hklBC : pyLower k ∉ (rest'.map (fun p => pyLower p.1) ++ DM.map (fun p => pyLower p.1)) :=
    (List.nodup_cons.mp hBC).1
  have hklA : pyLower k ∉ DL.map (fun p => pyLower p.1) :=
    List.disjoint_right.mp hdisj (List.mem_cons_self _ _)
  refine ⟨?_, ?_, ?_, ?_⟩
  · intro hk
    obtain ⟨p, hp, hp1⟩ := List.mem_map.mp hk
    exact hklA (List.mem_map.mpr ⟨p, hp, by rw [hp1]⟩)
  · intro hk
    obtain ⟨p, hp, hp1⟩ := List.mem_map.mp hk
    exact hklA (List.mem_map.mpr ⟨p, hp, by rw [hp1, pyLower_idem]⟩)
  · intro hk
    obtain ⟨p, hp, hp1⟩ := List.mem_map.mp hk
    refine hklBC (List.mem_append.mpr (Or.inl ?_))
    exact List.mem_map.mpr ⟨p, hp, by rw [hp1, pyLower_idem]⟩
  · intro hk
    obtain ⟨p, hp, hp1⟩ := List.mem_map.mp hk
    refine hklBC (List.mem_append.mpr (Or.inr ?_))
    exact List.mem_map.mpr ⟨p, hp, by rw [hp1, pyLower_idem]⟩

theorem middle_dict_lookup (DL rest' DM : List (String × String)) (k v : String)
    (hkDL : k ∉ keysOf DL) :
    lookupKey (DL ++ (k, v) :: rest' ++ DM) k = some v := by
  rw [List.append_assoc, List.cons_append]
  rw [lookupKey_append_left_none _ _ _ hkDL]
  exact lookupKey_cons_self _ _ _

theorem middle_dict_erase (DL rest' DM : List (String × String)) (k v : String)
    (hkDL : k ∉ keysOf DL) :
    eraseKey (DL ++ (k, v) :: rest' ++ DM) k = DL ++ rest' ++ DM := by
  rw [List.append_assoc, List.cons_append]
  rw [eraseKey_append_left_none _ _ _ hkDL]
  rw [eraseKey_cons_self, List.append_assoc]

theorem nodup_shift (DL rest' DM : List (String × String)) (k v v2 : String)
    (hnd : ((DL ++ (k, v) :: rest' ++ DM).map (fun p => pyLower p.1)).Nodup) :
    ((DL ++ rest' ++ (DM ++ [(pyLower k, v2)])).map (fun p => pyLower p.1)).Nodup := by
  simp only [List.map_append, List.map_cons, List.map_nil, List.append_assoc,
    List.cons_append, List.nil_append] at hnd ⊢
  rw [pyLower_idem]
  have h1 : List.Perm
      (pyLower k :: (rest'.map (fun p => pyLower p.1) ++ DM.map (fun p => pyLower p.1)))
      (rest'.map (fun p => pyLower p.1) ++ (DM.map (fun p => pyLower p.1) ++ [pyLower k])) := by
    have h0 := (List.perm_append_singleton (pyLower k)
      (rest'.map (fun p => pyLower p.1) ++ DM.map (fun p => pyLower p.1))).symm
    simpa [List.append_assoc] using h0
  exact (h1.append_left (DL.map (fun p => pyLower p.1))).nodup hnd


theorem valid_go_fst_error (rest : List (String × String)) :
    ∀ (DL DM : List (String × String)) (k0 v0 : String),
    ((DL ++ rest ++ DM).map (fun p => pyLower p.1)).Nodup →
    firstInvalid rest = some (k0, v0) →
    (valid_secret_params_go (keysOf rest) (DL ++ rest ++ DM)).1 =
      "unknown parameter: " ++ k0 ++ "=" ++ v0 := by
  induction rest with
  | nil =>
    intro DL DM k0 v0 hnd hf
    simp [firstInvalid] at hf
  | cons p rest' ih =>
    intro DL DM k0 v0 hnd hf
    obtain ⟨k, v⟩ := p
    cases hcont : GETPASSWORD_REQUEST_PARM.contains (pyLower k) with
    | false =>
      have hf0 : (k, v) = (k0, v0) := by
        have : firstInvalid ((k, v) :: rest') = some (k, v) :=
          List.find?_cons_of_pos _
            (show (!(GETPASSWORD_REQUEST_PARM.contains (pyLower k))) = true by rw [hcont]; rfl)
        rw [this] at hf
        exact Option.some.inj hf
      obtain ⟨hk0, hv0⟩ := Prod.mk.injEq .. ▸ hf0
      subst hk0; subst hv0
      have hkDL : k ∉ keysOf DL := (key_facts DL rest' DM k v hnd).1
      show (valid_secret_params_go (k :: keysOf rest') (DL ++ (k, v) :: rest' ++ DM)).1 = _
      simp only [valid_secret_params_go]
      rw [if_pos (show (!(GETPASSWORD_REQUEST_PARM.contains (pyLower k))) = true by rw [hcont]; rfl)]
      simp only [lookupD, middle_dict_lookup DL rest' DM k v hkDL, Option.getD_some]
    | true =>
      have hf' : firstInvalid rest' = some (k0, v0) := by
        have : firstInvalid ((k, v) :: rest') = firstInvalid rest' :=
          List.find?_cons_of_neg _
            (show ¬(!(GETPASSWORD_REQUEST_PARM.contains (pyLower k))) = true by
              rw [hcont]; decide)
        rw [this] at hf
        exact hf
      show (valid_secret_params_go (k :: keysOf rest') (DL ++ (k, v) :: rest' ++ DM)).1 = _
      simp only [valid_secret_params_go]
      rw [if_neg (show ¬(!(GETPASSWORD_REQUEST_PARM.contains (pyLower k))) = true by
        rw [hcont]; decide)]
      by_cases hkl : k = pyLower k
      · rw [if_neg (fun hne => hne hkl)]
        have hd : DL ++ (k, v) :: rest' ++ DM = (DL ++ [(k, v)]) ++ rest' ++ DM := by simp
        rw [hd]
        rw [hd] at hnd
        exact ih (DL ++ [(k, v)]) DM k0 v0 hnd hf'
      · rw [if_pos hkl]
        obtain ⟨hkDL, hklDL, hklR, hklDM⟩ := key_facts DL rest' DM k v hnd
        rw [middle_dict_erase DL rest' DM k v hkDL]
        simp only [lookupD, middle_dict_lookup DL rest' DM k v hkDL, Option.getD_some]
        have hset : setKey (DL ++ rest' ++ DM) (pyLower k) v =
            DL ++ rest' ++ (DM ++ [(pyLower k, v)]) := by
          rw [setKey_of_not_mem]
          · simp
          · simp only [keysOf, List.map_append, List.mem_append, not_or]
            exact ⟨⟨hklDL, hklR⟩, hklDM⟩
        rw [hset]
        exact ih DL (DM ++ [(pyLower k, v)]) k0 v0 (nodup_shift DL rest' DM k v v hnd) hf'

theorem valid_go_ok (rest : List (String × String)) :
    ∀ (DL DM : List (String × String)),
    ((DL ++ rest ++ DM).map (fun p => pyLower p.1)).Nodup →
    firstInvalid rest = none →
    valid_secret_params_go (keysOf rest) (DL ++ rest ++ DM) =
      ("", DL ++ rest.filter (fun p => pyLower p.1 == p.1) ++ DM
           ++ (rest.filter (fun p => !(pyLower p.1 == p.1))).map (fun p => (pyLower p.1, p.2))) := by
  induction rest with
  | nil =>
    intro DL DM hnd hf
    simp [valid_secret_params_go, keysOf]
  | cons p rest' ih =>
    intro DL DM hnd hf
    obtain ⟨k, v⟩ := p
    have hcont : GETPASSWORD_REQUEST_PARM.contains (pyLower k) = true := by
      cases hcc : GETPASSWORD_REQUEST_PARM.contains (pyLower k) with
      | true => rfl
      | false =>
        have : firstInvalid ((k, v) :: rest') = some (k, v) :=
          List.find?_cons_of_pos _
            (show (!(GETPASSWORD_REQUEST_PARM.contains (pyLower k))) = true by rw [hcc]; rfl)
        rw [hf] at this
        exact Option.noConfusion this
    have hf' : firstInvalid rest' = none := by
      have : firstInvalid ((k, v) :: rest') = firstInvalid rest' :=
        List.find?_cons_of_neg _
          (show ¬(!(GETPASSWORD_REQUEST_PARM.contains (pyLower k))) = true by
            rw [hcont]; decide)
      rw [this] at hf
      exact hf
    show valid_secret_params_go (k :: keysOf rest') (DL ++ (k, v) :: rest' ++ DM) = _
    simp only [valid_secret_params_go]
    rw [if_neg (show ¬(!(GETPASSWORD_REQUEST_PARM.contains (pyLower k))) = true by
      rw [hcont]; decide)]
    by_cases hkl : k = pyLower k
    · rw [if_neg (fun hne => hne hkl)]
      have hd : DL ++ (k, v) :: rest' ++ DM = (DL ++ [(k, v)]) ++ rest' ++ DM := by simp
      rw [hd]
      rw [hd] at hnd
      rw [ih (DL ++ [(k, v)]) DM hnd hf']
      have hfk : (pyLower k == k) = true := by
        rw [← hkl]; exact beq_self_eq_true k
      simp [List.filter_cons, hfk]
    · rw [if_pos hkl]
      obtain ⟨hkDL, hklDL, hklR, hklDM⟩ := key_facts DL rest' DM k v hnd
      rw [middle_dict_erase DL rest' DM k v hkDL]
      simp only [lookupD, middle_dict_lookup DL rest' DM k v hkDL, Option.getD_some]
      have hset : setKey (DL ++ rest' ++ DM) (pyLower k) v =
          DL ++ rest' ++ (DM ++ [(pyLower k, v)]) := by
        rw [setKey_of_not_mem]
        · simp
        · simp only [keysOf, List.map_append, List.mem_append, not_or]
          exact ⟨⟨hklDL, hklR⟩, hklDM⟩
      rw [hset]
      rw [ih DL (DM ++ [(pyLower k, v)]) (nodup_shift DL rest' DM k v v hnd) hf']
      have hfk : (pyLower k == k) = false := by
        cases hb : pyLower k == k with
        | false => rfl
        | true => exact absurd (eq_of_beq hb).symm hkl
      simp [List.filter_cons, hfk]

/-- C7 fails as stated: on `\x7b"Safe": "a", "safe": "b"\x7d` (two keys with
the same lowercased form) the validator reports no error, yet the original
value of the key `safe` is not preserved - the renamed `Safe` entry
overwrites it. -/
theorem claim_C7_counterexample :
    valid_secret_params [("Safe", "a"), ("safe", "b")] = ("", [("safe", "a")]) ∧
    ¬ (("safe", "b") ∈ (valid_secret_params [("Safe", "a"), ("safe", "b")]).2) := by
  refine ⟨by decide, by decide⟩

/-- C7 (amended): for every mapping whose keys have pairwise-distinct
lowercased forms, the validator returns an error naming the first offending
key and its value when some lowercased key is outside the allow-list;
otherwise it returns no error and the result holds exactly the entries with
every key lowercased and each value preserved, the already-lowercase keys
keeping their relative order (renamed keys move to the end, in processing
order).  When two keys share a lowercased form, a rename silently writes
its value over the entry already stored at the lowercased key - in the
counterexample the rename of the earlier-processed key `Safe` overwrites
the value of the key `safe` - so value preservation fails there. -/
theorem claim_C7_validator (params : List (String × String))
    (hnd : (params.map (fun p => pyLower p.1)).Nodup) :
    (∀ kv, firstInvalid params = some kv →
      (valid_secret_params params).1 = "unknown parameter: " ++ kv.1 ++ "=" ++ kv.2) ∧
    (firstInvalid params = none →
      valid_secret_params params =
        ("", params.filter (fun p => pyLower p.1 == p.1)
             ++ (params.filter (fun p => !(pyLower p.1 == p.1))).map
                 (fun p => (pyLower p.1, p.2)))) := by
  constructor
  · intro kv hf
    have h := valid_go_fst_error params [] [] kv.1 kv.2 (by simpa using hnd) hf
    simpa [valid_secret_params] using h
  · intro hf
    have h := valid_go_ok params [] [] (by simpa using hnd) hf
    simpa [valid_secret_params] using h

theorem claim_C7_witness :
    (([("Safe", "a"), ("folder", "b")] : List (String × String)).map
      (fun p => pyLower p.1)).Nodup ∧
    valid_secret_params [("Safe", "a"), ("folder", "b")] =
      ("", [("folder", "b"), ("safe", "a")]) := by
  refine ⟨by decide, ?_⟩
  have h := (claim_C7_validator [("Safe", "a"), ("folder", "b")] (by decide)).2 rfl
  rw [h]
  rfl

theorem step_preserves (self : EPV_AIM) (s s' : AimSystem) (hstep : AimStep self s s')
    (hinv : s.permits + inflightCount s.tasks = s.maxTasks)
    (hout : ∀ t ∈ s.tasks, ∀ out, t.phase = .done out → out = runCall self t.call) :
    s'.maxTasks = s.maxTasks ∧
    s'.permits + inflightCount s'.tasks = s'.maxTasks ∧
    (∀ t ∈ s'.tasks, ∀ out, t.phase = .done out → out = runCall self t.call) := by
  cases hstep with
  | acquire mx p l₁ l₂ c hp =>
    refine ⟨rfl, ?_, ?_⟩
    · simp only [inflightCount, List.countP_append, List.countP_cons,
        TaskPhase.isInflight] at hinv ⊢
      simp at hinv ⊢
      omega
    · intro t ht out hph
      rcases List.mem_append.mp ht with h1 | h2
      · exact hout t (List.mem_append.mpr (Or.inl h1)) out hph
      · rcases List.mem_cons.mp h2 with he | h3
        · rw [he] at hph
          exact TaskPhase.noConfusion hph
        · exact hout t (List.mem_append.mpr (Or.inr (List.mem_cons.mpr (Or.inr h3)))) out hph
  | finish mx p l₁ l₂ c =>
    refine ⟨rfl, ?_, ?_⟩
    · simp only [inflightCount, List.countP_append, List.countP_cons,
        TaskPhase.isInflight] at hinv ⊢
      simp at hinv ⊢
      omega
    · intro t ht out hph
      rcases List.mem_append.mp ht with h1 | h2
      · exact hout t (List.mem_append.mpr (Or.inl h1)) out hph
      · rcases List.mem_cons.mp h2 with he | h3
        · rw [he] at hph
          have : runCall self c = out := by
            have h4 := TaskPhase.done.inj hph
            exact h4
          rw [← this, he]
        · exact hout t (List.mem_append.mpr (Or.inr (List.mem_cons.mpr (Or.inr h3)))) out hph

theorem reach_invariants (self : EPV_AIM) (s0 s : AimSystem)
    (hr : AimReachable self s0 s)
    (hinv : s0.permits + inflightCount s0.tasks = s0.maxTasks)
    (hout : ∀ t ∈ s0.tasks, ∀ out, t.phase = .done out → out = runCall self t.call) :
    s.maxTasks = s0.maxTasks ∧
    s.permits + inflightCount s.tasks = s.maxTasks ∧
    (∀ t ∈ s.tasks, ∀ out, t.phase = .done out → out = runCall self t.call) := by
  induction hr with
  | refl => exact ⟨rfl, hinv, hout⟩
  | tail hab hbc ih =>
    obtain ⟨ih1, ih2, ih3⟩ := ih
    obtain ⟨p1, p2, p3⟩ := step_preserves self _ _ hbc ih2 ih3
    exact ⟨p1.trans ih1, p2, p3⟩

theorem step_measure (self : EPV_AIM) (s s' : AimSystem) (h : AimStep self s s') :
    sysMeasure s' < sysMeasure s := by
  cases h with
  | acquire mx p l₁ l₂ c hp =>
    simp [sysMeasure, phaseWeight, List.map_append, List.sum_append]
  | finish mx p l₁ l₂ c =>
    simp [sysMeasure, phaseWeight, List.map_append, List.sum_append]

theorem stuck_all_done (self : EPV_AIM) (s : AimSystem) (hmx : 1 ≤ s.maxTasks)
    (hinv : s.permits + inflightCount s.tasks = s.maxTasks)
    (hout : ∀ t ∈ s.tasks, ∀ out, t.phase = .done out → out = runCall self t.call)
    (hstuck : StuckSys self s) :
    ∀ t ∈ s.tasks, t.phase = .done (runCall self t.call) := by
  obtain ⟨mx, p, ts⟩ := s
  dsimp only at hmx hinv hout hstuck ⊢
  intro t ht
  cases ph : t.phase with
  | done out =>
    have hco := hout t ht out ph
    rw [hco]
  | idle =>
    exfalso
    have hteta : t = AimTask.mk t.call TaskPhase.idle := by rw [← ph]
    obtain ⟨l₁, l₂, hts⟩ := List.append_of_mem ht
    by_cases hp : 0 < p
    · have step := @AimStep.acquire self mx p l₁ l₂ t.call hp
      rw [← hteta] at step
      rw [← hts] at step
      exact hstuck _ step
    · have hp0 : p = 0 := by omega
      have hcnt : 0 < inflightCount ts := by omega
      have hcnt2 : 0 < ts.countP (fun u => u.phase.isInflight) := hcnt
      obtain ⟨u, hu, hpu⟩ := List.countP_pos_iff.mp hcnt2
      have hpu2 : u.phase.isInflight = true := hpu
      have hph2 : u.phase = TaskPhase.inflight := by
        cases hup : u.phase with
        | inflight => rfl
        | idle => rw [hup] at hpu2; exact Bool.noConfusion hpu2
        | done out => rw [hup] at hpu2; exact Bool.noConfusion hpu2
      have hueta : u = AimTask.mk u.call TaskPhase.inflight := by rw [← hph2]
      obtain ⟨m₁, m₂, hms⟩ := List.append_of_mem hu
      have step := @AimStep.finish self mx p m₁ m₂ u.call
      rw [← hueta] at step
      rw [← hms] at step
      exact hstuck _ step
  | inflight =>
    exfalso
    have hteta : t = AimTask.mk t.call TaskPhase.inflight := by rw [← ph]
    obtain ⟨l₁, l₂, hts⟩ := List.append_of_mem ht
    have step := @AimStep.finish self mx p l₁ l₂ t.call
    rw [← hteta] at step
    rw [← hts] at step
    exact hstuck _ step



/-- C10 fails as stated when `max_concurrent_tasks = 0`: the single caller
(N = 1 > 0 = max_concurrent_tasks) can never acquire a permit from
`asyncio.Semaphore(0)`, no step is enabled, and the call never completes -
against the claim that all N calls eventually complete or fail. -/
theorem claim_C10_counterexample :
    StuckSys sampleSelf deadSystem ∧ noTaskDone deadSystem = true := by
  constructor
  · intro s' hs
    have hd : deadSystem = ⟨0, 0, [⟨cexCall, TaskPhase.idle⟩]⟩ := rfl
    rw [hd] at hs
    generalize hts : [AimTask.mk cexCall TaskPhase.idle] = ts at hs
    cases hs with
    | acquire mx p l₁ l₂ c hp =>
      omega
    | finish mx p l₁ l₂ c =>
      cases l₁ with
      | nil => simp at hts
      | cons a l₁x => simp at hts
  · rfl

/-- C10 (amended): with `N > max_concurrent_tasks` simultaneous `execute`
calls on one client, every reachable interleaving keeps at most
`max_concurrent_tasks` requests in flight (the permit is acquired before
the GET and released on every exit path, the classification being total);
every step strictly decreases the remaining-work measure, so every maximal
run is finite; and - provided `max_concurrent_tasks ≥ 1` - a state that
admits no further step has every call completed with the outcome classified
from its own response, independently of the other calls.  (With
`max_concurrent_tasks = 0` the gate deadlocks all callers; see the
counterexample.) -/
theorem claim_C10_bounded_concurrency (self : EPV_AIM) (mx : Nat)
    (calls : List AimCall) (hN : mx < calls.length) (s : AimSystem)
    (hr : AimReachable self (initSystem mx calls) s) :
    inflightCount s.tasks ≤ mx ∧
    (∀ s', AimStep self s s' → sysMeasure s' < sysMeasure s) ∧
    (1 ≤ mx → StuckSys self s →
      ∀ t ∈ s.tasks, t.phase = .done (runCall self t.call)) := by
  have h0 : inflightCount (initSystem mx calls).tasks = 0 := by
    rw [inflightCount, List.countP_eq_zero]
    intro a ha
    obtain ⟨c, hc, rfl⟩ := List.mem_map.mp ha
    intro hfalse
    exact Bool.noConfusion hfalse
  have hinv0 : (initSystem mx calls).permits + inflightCount (initSystem mx calls).tasks =
      (initSystem mx calls).maxTasks := by
    rw [h0]
    rfl
  have hout0 : ∀ t ∈ (initSystem mx calls).tasks, ∀ out,
      t.phase = .done out → out = runCall self t.call := by
    intro t htm out hph
    obtain ⟨c, hc, rfl⟩ := List.mem_map.mp htm
    exact TaskPhase.noConfusion hph
  obtain ⟨hmax, hinv, hout⟩ := reach_invariants self _ s hr hinv0 hout0
  have hsm : s.maxTasks = mx := hmax
  refine ⟨by omega, ?_, ?_⟩
  · intro s' hs'
    exact step_measure self s s' hs'
  · intro hmx hstuck
    exact stuck_all_done self s (by rw [hsm]; exact hmx) hinv hout hstuck

theorem claim_C10_witness :
    (1 : Nat) < ([cexCall, cexCall] : List AimCall).length ∧
    (inflightCount (initSystem 1 [cexCall, cexCall]).tasks ≤ 1 ∧
     (∀ s', AimStep sampleSelf (initSystem 1 [cexCall, cexCall]) s' →
        sysMeasure s' < sysMeasure (initSystem 1 [cexCall, cexCall])) ∧
     (1 ≤ 1 → StuckSys sampleSelf (initSystem 1 [cexCall, cexCall]) →
        ∀ t ∈ (initSystem 1 [cexCall, cexCall]).tasks,
          t.phase = .done (runCall sampleSelf t.call))) :=
  ⟨by decide,
   claim_C10_bounded_concurrency sampleSelf 1 [cexCall, cexCall] (by decide)
     (initSystem 1 [cexCall, cexCall]) Relation.ReflTransGen.refl⟩


end Aiobastion
